import Mathlib

/-!
Verification of the complaint-analysis heuristic of a hostel-management
backend. The analyzer (`analyze_text` in `main.py`) lower-cases its input,
scores sentiment from fixed positive/negative word sets by substring
presence, picks a complaint category by keyword hit counts with a
first-strictly-greater tie-break, and derives a severity label. Two
endpoints invoke it: complaint creation (which merges the labels into the
stored record) and a stateless preview endpoint.

Strings are matched as lists of characters; the Python substring
test `w in t` is embedded as `subAt`.
-/

namespace Hostel

/-- The Python substring containment test `w in t`, on character lists:
`subAt t w = true` iff `w` occurs contiguously inside `t`
(the empty `w` is contained in everything, as in Python). -/
def subAt (t w : List Char) : Bool :=
  match t with
  | [] => w.isPrefixOf []
  | c :: ts => w.isPrefixOf (c :: ts) || subAt ts w

/-- The Python `text.lower()` call, as a character list (ASCII case folding). -/
def pyLower (s : String) : List Char :=
  s.toList.map Char.toLower

/-- `NEG_WORDS` from `main.py` (a Python set; listed in source order —
the score below is order-independent). -/
def NEG_WORDS : List String :=
  ["bad", "terrible", "worst", "awful", "dirty", "late", "rude", "leak",
   "broken", "noisy", "slow"]

/-- `POS_WORDS` from `main.py`. -/
def POS_WORDS : List String :=
  ["good", "great", "excellent", "helpful", "clean", "quick"]

/-- Keyword list of the `"maintenance"` category. -/
def maintenanceKeys : List String :=
  ["leak", "broken", "repair", "power", "electric", "plumbing", "fan", "ac",
   "heater"]

/-- Keyword list of the `"food"` category. -/
def foodKeys : List String :=
  ["mess", "food", "canteen", "meal", "breakfast", "dinner", "lunch"]

/-- Keyword list of the `"security"` category. -/
def securityKeys : List String :=
  ["security", "guard", "gate", "theft", "steal"]

/-- Keyword list of the `"cleanliness"` category. -/
def cleanlinessKeys : List String :=
  ["dirty", "clean", "trash", "garbage"]

/-- Keyword list of the `"discipline"` category. -/
def disciplineKeys : List String :=
  ["noise", "noisy", "disturb", "fight"]

/-- `CATEGORY_KEYWORDS` from `main.py`, in the insertion order of the
source dict (Python dicts iterate in insertion order). -/
def CATEGORY_KEYWORDS : List (String × List String) :=
  [("maintenance", maintenanceKeys), ("food", foodKeys),
   ("security", securityKeys), ("cleanliness", cleanlinessKeys),
   ("discipline", disciplineKeys)]

/-- `w in t` for a keyword `w : String` against lowered text `t`. -/
def present (t : List Char) (w : String) : Bool :=
  subAt t w.toList

/-- The sentiment score loops of `analyze_text`: subtract 1 for each
negative word present, then add 1 for each positive word present. -/
def sentiScore (t : List Char) : Int :=
  let s1 := NEG_WORDS.foldl (fun s w => if present t w then s - 1 else s) 0
  POS_WORDS.foldl (fun s w => if present t w then s + 1 else s) s1

/-- `hits = sum(1 for k in keys if k in t)` from `analyze_text`. -/
def hitsOf (t : List Char) (ks : List String) : Nat :=
  ks.countP (fun k => present t k)

/-- The category-selection loop of `analyze_text`: fold over
`CATEGORY_KEYWORDS`, replacing `(best_cat, best_hits)` only when the
hit count of the current category is strictly greater. -/
def bestCategory (t : List Char) : Option String × Nat :=
  CATEGORY_KEYWORDS.foldl
    (fun b ck => if b.2 < hitsOf t ck.2 then (some ck.1, hitsOf t ck.2) else b)
    (none, 0)

/-- The dict returned by `analyze_text`. -/
structure AnalysisResult where
  sentiment : String
  category : Option String
  severity : String
deriving DecidableEq

/-- `analyze_text` from `main.py`, lines 69–95. -/
def analyze_text (text : String) : AnalysisResult :=
  let t := pyLower text
  let score := sentiScore t
  let sentiment :=
    if 0 < score then "positive" else if score < 0 then "negative" else "neutral"
  let bc := bestCategory t
  let severity :=
    if sentiment = "negative" then (if bc.2 ≤ 1 then "medium" else "high")
    else "low"
  { sentiment := sentiment, category := bc.1, severity := severity }

/-- The `Complaint` request model from `schemas.py`. -/
structure Complaint where
  raised_by_roll_no : Option String
  raised_by_staff_id : Option String
  subject : String
  description : String
  category : Option String
  sentiment : Option String
  severity : Option String
deriving DecidableEq

/-- The complaint document as stored: same keys as the request model
(`complaint.model_dump()`), optional fields as `Option`. -/
structure StoredComplaint where
  raised_by_roll_no : Option String
  raised_by_staff_id : Option String
  subject : String
  description : String
  category : Option String
  sentiment : Option String
  severity : Option String
deriving DecidableEq

/-- `complaint.model_dump()`: the request model as a plain record. -/
def dumpComplaint (c : Complaint) : StoredComplaint :=
  ⟨c.raised_by_roll_no, c.raised_by_staff_id, c.subject, c.description,
   c.category, c.sentiment, c.severity⟩

/-- `create_complaint` from `main.py`, lines 168–176: analyze
`f"{subject} {description}"` and overwrite the three analysis keys in the
dumped record before storing it. -/
def create_complaint (c : Complaint) : StoredComplaint :=
  let analysis := analyze_text (c.subject ++ " " ++ c.description)
  { dumpComplaint c with
      category := analysis.category,
      sentiment := some analysis.sentiment,
      severity := some analysis.severity }

/-- The preview payload: a JSON object viewed as a map from key to value,
where `none` is a missing key and `some none` a key bound to `null`. -/
def Payload : Type := String → Option (Option String)

/-- The Python call `payload.get(k)`: `None` both for a missing key and
for a key bound to `None`. -/
def pyGet (p : Payload) (k : String) : Option String :=
  (p k).bind id

/-- `analyze_complaint` from `main.py`, lines 183–186:
`(payload.get("subject") or "") + " " + (payload.get("description") or "")`,
then `analyze_text`. (`x or ""` agrees with `Option.getD "" ` on string
values: the only falsy string is `""` itself.) -/
def analyze_complaint (p : Payload) : AnalysisResult :=
  analyze_text (((pyGet p "subject").getD "") ++ " " ++
    ((pyGet p "description").getD ""))

/-- A concrete payload with both keys bound to string values. -/
def mkPayload (subject description : String) : Payload :=
  fun k =>
    if k = "subject" then some (some subject)
    else if k = "description" then some (some description)
    else none

end Hostel

namespace Hostel

/-- A fold that conditionally subtracts 1 computes `init` minus a count. -/
theorem foldl_if_sub (l : List String) (p : String → Bool) (i : Int) :
    l.foldl (fun s w => if p w then s - 1 else s) i = i - (l.countP p : Int) := by
  induction l generalizing i with
  | nil => simp
  | cons a l ih =>
      simp only [List.foldl_cons, List.countP_cons, ih]
      by_cases h : p a = true
      · simp [h]
        ring
      · simp [h]

/-- A fold that conditionally adds 1 computes `init` plus a count. -/
theorem foldl_if_add (l : List String) (p : String → Bool) (i : Int) :
    l.foldl (fun s w => if p w then s + 1 else s) i = i + (l.countP p : Int) := by
  induction l generalizing i with
  | nil => simp
  | cons a l ih =>
      simp only [List.foldl_cons, List.countP_cons, ih]
      by_cases h : p a = true
      · simp [h]
        ring
      · simp [h]

/-- The score is the number of positive words present minus the number of
negative words present (each word counted once: `countP` over the
duplicate-free word lists). -/
theorem sentiScore_eq (t : List Char) :
    sentiScore t =
      (POS_WORDS.countP (fun w => present t w) : Int) -
        (NEG_WORDS.countP (fun w => present t w) : Int) := by
  unfold sentiScore
  rw [foldl_if_sub, foldl_if_add]
  ring

/-- The sentiment field of `analyze_text` is the three-way sign test on
the score of the lowered text. -/
theorem analyze_sentiment_def (text : String) :
    (analyze_text text).sentiment =
      (if 0 < sentiScore (pyLower text) then "positive"
       else if sentiScore (pyLower text) < 0 then "negative" else "neutral") := rfl

/-- The category field of `analyze_text` is the first component of the
category-selection fold on the lowered text. -/
theorem analyze_category_def (text : String) :
    (analyze_text text).category = (bestCategory (pyLower text)).1 := rfl

/-- The severity field of `analyze_text` in terms of the sentiment field
and the best hit count. -/
theorem analyze_severity_def (text : String) :
    (analyze_text text).severity =
      (if (analyze_text text).sentiment = "negative" then
        (if (bestCategory (pyLower text)).2 ≤ 1 then "medium" else "high")
       else "low") := rfl

/-- The category-selection fold yields `none` or one of the five fixed
category names. -/
theorem bestCategory_cases (t : List Char) :
    (bestCategory t).1 = none ∨ (bestCategory t).1 = some "maintenance"
    ∨ (bestCategory t).1 = some "food" ∨ (bestCategory t).1 = some "security"
    ∨ (bestCategory t).1 = some "cleanliness"
    ∨ (bestCategory t).1 = some "discipline" := by
  unfold bestCategory CATEGORY_KEYWORDS
  simp only [List.foldl_cons, List.foldl_nil]
  split_ifs <;> simp

/-- Claim C1 — `analyze_text` lower-cases the text and scores sentiment as
the number of positive marker words present as substrings minus the number
of negative marker words present (each word counted at most once); the
sentiment label is "positive" when the score is positive, "negative" when
negative, and "neutral" when zero. -/
theorem claim_C1_sentiment_score (text : String) :
    sentiScore (pyLower text) =
      (POS_WORDS.countP (fun w => present (pyLower text) w) : Int) -
        (NEG_WORDS.countP (fun w => present (pyLower text) w) : Int)
    ∧ (analyze_text text).sentiment =
      (if 0 < sentiScore (pyLower text) then "positive"
       else if sentiScore (pyLower text) < 0 then "negative" else "neutral") :=
  ⟨sentiScore_eq _, rfl⟩

/-- Claim C2 — the returned category is characterised by the hit counts of
the five categories: it is absent iff every category has zero hits, and it
is a given category iff that category strictly beats every earlier category
in the fixed order maintenance, food, security, cleanliness, discipline and
is not beaten (weakly) by any later one — i.e. ties keep the
earlier-listed category in the lead. -/
theorem claim_C2_category_selection (text : String) :
    ((analyze_text text).category = none ↔
      hitsOf (pyLower text) maintenanceKeys = 0 ∧ hitsOf (pyLower text) foodKeys = 0 ∧
      hitsOf (pyLower text) securityKeys = 0 ∧ hitsOf (pyLower text) cleanlinessKeys = 0 ∧
      hitsOf (pyLower text) disciplineKeys = 0)
    ∧ ((analyze_text text).category = some "maintenance" ↔
      0 < hitsOf (pyLower text) maintenanceKeys ∧
      hitsOf (pyLower text) foodKeys ≤ hitsOf (pyLower text) maintenanceKeys ∧
      hitsOf (pyLower text) securityKeys ≤ hitsOf (pyLower text) maintenanceKeys ∧
      hitsOf (pyLower text) cleanlinessKeys ≤ hitsOf (pyLower text) maintenanceKeys ∧
      hitsOf (pyLower text) disciplineKeys ≤ hitsOf (pyLower text) maintenanceKeys)
    ∧ ((analyze_text text).category = some "food" ↔
      0 < hitsOf (pyLower text) foodKeys ∧
      hitsOf (pyLower text) maintenanceKeys < hitsOf (pyLower text) foodKeys ∧
      hitsOf (pyLower text) securityKeys ≤ hitsOf (pyLower text) foodKeys ∧
      hitsOf (pyLower text) cleanlinessKeys ≤ hitsOf (pyLower text) foodKeys ∧
      hitsOf (pyLower text) disciplineKeys ≤ hitsOf (pyLower text) foodKeys)
    ∧ ((analyze_text text).category = some "security" ↔
      0 < hitsOf (pyLower text) securityKeys ∧
      hitsOf (pyLower text) maintenanceKeys < hitsOf (pyLower text) securityKeys ∧
      hitsOf (pyLower text) foodKeys < hitsOf (pyLower text) securityKeys ∧
      hitsOf (pyLower text) cleanlinessKeys ≤ hitsOf (pyLower text) securityKeys ∧
      hitsOf (pyLower text) disciplineKeys ≤ hitsOf (pyLower text) securityKeys)
    ∧ ((analyze_text text).category = some "cleanliness" ↔
      0 < hitsOf (pyLower text) cleanlinessKeys ∧
      hitsOf (pyLower text) maintenanceKeys < hitsOf (pyLower text) cleanlinessKeys ∧
      hitsOf (pyLower text) foodKeys < hitsOf (pyLower text) cleanlinessKeys ∧
      hitsOf (pyLower text) securityKeys < hitsOf (pyLower text) cleanlinessKeys ∧
      hitsOf (pyLower text) disciplineKeys ≤ hitsOf (pyLower text) cleanlinessKeys)
    ∧ ((analyze_text text).category = some "discipline" ↔
      0 < hitsOf (pyLower text) disciplineKeys ∧
      hitsOf (pyLower text) maintenanceKeys < hitsOf (pyLower text) disciplineKeys ∧
      hitsOf (pyLower text) foodKeys < hitsOf (pyLower text) disciplineKeys ∧
      hitsOf (pyLower text) securityKeys < hitsOf (pyLower text) disciplineKeys ∧
      hitsOf (pyLower text) cleanlinessKeys < hitsOf (pyLower text) disciplineKeys) := by
  rw [analyze_category_def]
  unfold bestCategory CATEGORY_KEYWORDS
  simp only [List.foldl_cons, List.foldl_nil]
  split_ifs <;> simp_all <;> omega

/-- Claim C3 — severity is "low" whenever sentiment is not "negative";
when sentiment is "negative", severity is "medium" if the winning hit
count is at most 1 and "high" if it is at least 2. The last two conjuncts
justify reading the fold state as the hit count of the winning category:
it is 0 when the category is absent, and equals the hit count of the
returned category otherwise. -/
theorem claim_C3_severity (text : String) :
    ((analyze_text text).sentiment ≠ "negative" → (analyze_text text).severity = "low")
    ∧ ((analyze_text text).sentiment = "negative" →
        (((bestCategory (pyLower text)).2 ≤ 1 → (analyze_text text).severity = "medium")
          ∧ (2 ≤ (bestCategory (pyLower text)).2 → (analyze_text text).severity = "high")))
    ∧ ((analyze_text text).category = none → (bestCategory (pyLower text)).2 = 0)
    ∧ (∀ cname ks, (analyze_text text).category = some cname →
        (cname, ks) ∈ CATEGORY_KEYWORDS →
        (bestCategory (pyLower text)).2 = hitsOf (pyLower text) ks) := by
  refine ⟨?_, ?_, ?_, ?_⟩
  · intro h; rw [analyze_severity_def]; simp [h]
  · intro h; rw [analyze_severity_def, h]
    refine ⟨fun h2 => ?_, fun h2 => ?_⟩
    · simp [h2]
    · have hn : ¬ (bestCategory (pyLower text)).2 ≤ 1 := by omega
      simp [hn]
  · rw [analyze_category_def]
    unfold bestCategory CATEGORY_KEYWORDS
    simp only [List.foldl_cons, List.foldl_nil]
    split_ifs <;> simp_all
  · intro cname ks h1 h2
    rw [analyze_category_def] at h1
    unfold bestCategory at h1 ⊢
    unfold CATEGORY_KEYWORDS at h1 h2 ⊢
    simp only [List.foldl_cons, List.foldl_nil] at h1 ⊢
    simp only [List.mem_cons, List.not_mem_nil, or_false, Prod.mk.injEq] at h2
    split_ifs at h1 ⊢ <;> simp_all <;>
      rcases h2 with ⟨h, h'⟩ | ⟨h, h'⟩ | ⟨h, h'⟩ | ⟨h, h'⟩ | ⟨h, h'⟩ <;> simp_all

/-- Witness for claim C3: on "the service was slow" the sentiment is
negative and no category keyword matches, so severity is "medium". -/
theorem claim_C3_severity_witness :
    (analyze_text "the service was slow").severity = "medium" :=
  ((claim_C3_severity "the service was slow").2.1 (by decide)).1 (by decide)

/-- Claim C4 — `analyze_text` is deterministic: two calls on identical
text agree on the sentiment, category and severity fields, and on the
whole result. -/
theorem claim_C4_deterministic (t₁ t₂ : String) (h : t₁ = t₂) :
    (analyze_text t₁).sentiment = (analyze_text t₂).sentiment
    ∧ (analyze_text t₁).category = (analyze_text t₂).category
    ∧ (analyze_text t₁).severity = (analyze_text t₂).severity
    ∧ analyze_text t₁ = analyze_text t₂ := by
  subst h; exact ⟨rfl, rfl, rfl, rfl⟩

/-- Witness for claim C4 at the concrete text "noisy mess". -/
theorem claim_C4_deterministic_witness :
    (analyze_text "noisy mess").sentiment = (analyze_text "noisy mess").sentiment
    ∧ (analyze_text "noisy mess").category = (analyze_text "noisy mess").category
    ∧ (analyze_text "noisy mess").severity = (analyze_text "noisy mess").severity
    ∧ analyze_text "noisy mess" = analyze_text "noisy mess" :=
  claim_C4_deterministic "noisy mess" "noisy mess" rfl

/-- Claim C5 — `analyze_text` is total over strings and well-typed: the
sentiment is one of the three labels, the category is absent or one of the
five fixed names, and the severity is one of the three levels. -/
theorem claim_C5_total (text : String) :
    ((analyze_text text).sentiment = "positive"
      ∨ (analyze_text text).sentiment = "negative"
      ∨ (analyze_text text).sentiment = "neutral")
    ∧ ((analyze_text text).category = none
      ∨ (analyze_text text).category = some "maintenance"
      ∨ (analyze_text text).category = some "food"
      ∨ (analyze_text text).category = some "security"
      ∨ (analyze_text text).category = some "cleanliness"
      ∨ (analyze_text text).category = some "discipline")
    ∧ ((analyze_text text).severity = "low"
      ∨ (analyze_text text).severity = "medium"
      ∨ (analyze_text text).severity = "high") := by
  refine ⟨?_, ?_, ?_⟩
  · rw [analyze_sentiment_def]; split_ifs <;> simp
  · rw [analyze_category_def]; exact bestCategory_cases _
  · rw [analyze_severity_def]; split_ifs <;> simp

/-- Claim C6 — on the empty string, `analyze_text` returns sentiment
"neutral", no category, and severity "low". -/
theorem claim_C6_empty :
    analyze_text "" =
      { sentiment := "neutral", category := none, severity := "low" } := by
  decide

/-- Claim C7 — the preview endpoint and complaint creation agree: on a
payload carrying a subject and a description, the preview returns exactly
`analyze_text` of the subject and description joined by one space, and its
three fields are the label fields complaint creation merges into the
stored record (whatever the other submitted fields are). -/
theorem claim_C7_preview_create_agree (subject description : String)
    (rn si cat sent sev : Option String) :
    analyze_complaint (mkPayload subject description) =
      analyze_text (subject ++ " " ++ description)
    ∧ (create_complaint ⟨rn, si, subject, description, cat, sent, sev⟩).sentiment =
        some (analyze_complaint (mkPayload subject description)).sentiment
    ∧ (create_complaint ⟨rn, si, subject, description, cat, sent, sev⟩).category =
        (analyze_complaint (mkPayload subject description)).category
    ∧ (create_complaint ⟨rn, si, subject, description, cat, sent, sev⟩).severity =
        some (analyze_complaint (mkPayload subject description)).severity :=
  ⟨rfl, rfl, rfl, rfl⟩

/-- Counterexample to claim C8 as stated: the text "dirty clean bad"
contains both "dirty" and "clean" as substrings, yet the score is -1 (the
word "bad" also matches) and the sentiment is "negative", not
"neutral". -/
theorem claim_C8_counterexample :
    present (pyLower "dirty clean bad") "dirty" = true
    ∧ present (pyLower "dirty clean bad") "clean" = true
    ∧ sentiScore (pyLower "dirty clean bad") = -1
    ∧ ¬ ((analyze_text "dirty clean bad").sentiment = "neutral"
          ∧ (analyze_text "dirty clean bad").severity = "low") := by
  decide

/-- Claim C8 (amended) — for every text containing both "dirty" and
"clean" as substrings of its lowered form and containing no other marker
word of the negative or positive sets, the score cancels to 0 and
`analyze_text` returns sentiment "neutral" and severity "low". -/
theorem claim_C8_cancellation (text : String)
    (hd : present (pyLower text) "dirty" = true)
    (hc : present (pyLower text) "clean" = true)
    (hno : ∀ w ∈ NEG_WORDS ++ POS_WORDS, w ≠ "dirty" → w ≠ "clean" →
      present (pyLower text) w = false) :
    sentiScore (pyLower text) = 0
    ∧ (analyze_text text).sentiment = "neutral"
    ∧ (analyze_text text).severity = "low" := by
  have hbad := hno "bad" (by decide) (by decide) (by decide)
  have hter := hno "terrible" (by decide) (by decide) (by decide)
  have hwor := hno "worst" (by decide) (by decide) (by decide)
  have hawf := hno "awful" (by decide) (by decide) (by decide)
  have hlat := hno "late" (by decide) (by decide) (by decide)
  have hrud := hno "rude" (by decide) (by decide) (by decide)
  have hlea := hno "leak" (by decide) (by decide) (by decide)
  have hbro := hno "broken" (by decide) (by decide) (by decide)
  have hnoi := hno "noisy" (by decide) (by decide) (by decide)
  have hslo := hno "slow" (by decide) (by decide) (by decide)
  have hgoo := hno "good" (by decide) (by decide) (by decide)
  have hgre := hno "great" (by decide) (by decide) (by decide)
  have hexc := hno "excellent" (by decide) (by decide) (by decide)
  have hhel := hno "helpful" (by decide) (by decide) (by decide)
  have hqui := hno "quick" (by decide) (by decide) (by decide)
  have hscore : sentiScore (pyLower text) = 0 := by
    rw [sentiScore_eq]
    simp [NEG_WORDS, POS_WORDS, List.countP_cons, hbad, hter, hwor, hawf, hlat,
      hrud, hlea, hbro, hnoi, hslo, hgoo, hgre, hexc, hhel, hqui, hd, hc]
  have hsent : (analyze_text text).sentiment = "neutral" := by
    rw [analyze_sentiment_def, hscore]; simp
  refine ⟨hscore, hsent, ?_⟩
  rw [analyze_severity_def, hsent]; simp

/-- Witness for the amended claim C8 at the concrete text "dirty clean". -/
theorem claim_C8_cancellation_witness :
    sentiScore (pyLower "dirty clean") = 0
    ∧ (analyze_text "dirty clean").sentiment = "neutral"
    ∧ (analyze_text "dirty clean").severity = "low" :=
  claim_C8_cancellation "dirty clean" (by decide) (by decide) (by decide)

/-- Claim C9 — complaint creation stores the analyzer output in the
sentiment, category and severity fields, keeps every other submitted field
unchanged, and ignores any client-supplied values of the three analysis
fields (overwriting them). -/
theorem claim_C9_frame (c : Complaint) :
    (create_complaint c).sentiment =
      some (analyze_text (c.subject ++ " " ++ c.description)).sentiment
    ∧ (create_complaint c).category =
      (analyze_text (c.subject ++ " " ++ c.description)).category
    ∧ (create_complaint c).severity =
      some (analyze_text (c.subject ++ " " ++ c.description)).severity
    ∧ (create_complaint c).raised_by_roll_no = c.raised_by_roll_no
    ∧ (create_complaint c).raised_by_staff_id = c.raised_by_staff_id
    ∧ (create_complaint c).subject = c.subject
    ∧ (create_complaint c).description = c.description
    ∧ (∀ cat sent sev, create_complaint
        { c with category := cat, sentiment := sent, severity := sev } =
          create_complaint c) :=
  ⟨rfl, rfl, rfl, rfl, rfl, rfl, rfl, fun _ _ _ => rfl⟩

/-- Claim C10 — in the preview endpoint, a missing or null subject or
description behaves as the empty string: the endpoint still returns
`analyze_text` of the remaining text joined with a single space, and with
neither key present it returns `analyze_text " "`. -/
theorem claim_C10_missing_fields (p : Payload) :
    ((p "subject" = none ∨ p "subject" = some none) →
      analyze_complaint p = analyze_text (" " ++ ((pyGet p "description").getD "")))
    ∧ ((p "description" = none ∨ p "description" = some none) →
      analyze_complaint p = analyze_text (((pyGet p "subject").getD "") ++ " "))
    ∧ ((p "subject" = none ∨ p "subject" = some none) →
       (p "description" = none ∨ p "description" = some none) →
      analyze_complaint p = analyze_text " ") := by
  unfold analyze_complaint pyGet
  refine ⟨?_, ?_, ?_⟩
  · rintro (h | h) <;> simp [h]
  · rintro (h | h) <;> simp [h]
  · rintro (h | h) (h' | h') <;> simp [h, h']

/-- Witness for claim C10: the payload with no keys at all previews as
`analyze_text " "`. -/
theorem claim_C10_missing_fields_witness :
    analyze_complaint (fun _ => none) = analyze_text " " :=
  (claim_C10_missing_fields (fun _ => none)).2.2 (Or.inl rfl) (Or.inl rfl)

end Hostel
